import Mathlib

/-!
Verification of `oauthenticator/generic.py` (`GenericOAuthenticator`):
a shallow embedding of the `authenticate` coroutine and of the
`_check_group_whitelist` helper, followed by theorems checking the
natural-language specification against the embedded code.

JSON response bodies are modelled as already-parsed values (`JValue`);
the tolerant UTF-8 decoding step of `json.loads(resp.body.decode('utf8',
'replace'))` is not itself modelled, since every property here is about
the parsed contents.  Python exceptions raised along the way
(`KeyError`, `ValueError`, `TypeError`) are modelled by the `PyError`
type and `Except`.
-/

set_option autoImplicit false

namespace GenericOAuth

/-- A parsed JSON value, as produced by `json.loads`.  Numbers are
modelled as integers (no claim involves fractional numbers). -/
inductive JValue where
  | null
  | bool (b : Bool)
  | num (n : Int)
  | str (s : String)
  | arr (l : List JValue)
  | obj (o : List (String × JValue))

/-- A JSON object body: the association list underlying a Python dict
produced by `json.loads` on the endpoint responses. -/
abbrev JObj := List (String × JValue)

/-- Python `d.get(k)` on a dict: first binding of `k`, or `None`
(modelled as `Option.none`) when the key is absent. -/
def pyGet (o : JObj) (k : String) : Option JValue :=
  (o.find? (fun p => p.1 == k)).map (fun p => p.2)

/-- Python truthiness of a JSON-decoded value: `None`, `False`, `0`,
`''`, `[]` and `{}` are falsy, everything else truthy. -/
def pyTruthy : JValue → Bool
  | .null => false
  | .bool b => b
  | .num n => n != 0
  | .str s => !s.isEmpty
  | .arr l => !l.isEmpty
  | .obj o => !o.isEmpty

/-- Split a character list at every occurrence of the separator,
keeping empty fields — the semantics of Python's `s.split(sep)` with an
explicit one-character separator (`''.split(' ') == ['']`,
`'a  b'.split(' ') == ['a', '', 'b']`). -/
def splitOnChar (c : Char) : List Char → List (List Char)
  | [] => [[]]
  | x :: xs =>
    match splitOnChar c xs with
    | [] => [[x]]
    | h :: t => if x == c then [] :: h :: t else (x :: h) :: t

/-- Python `s.split(' ')`: split on each single space, keeping empty
fields. -/
def pySplitSpace (s : String) : List String :=
  (splitOnChar ' ' s.toList).map String.mk

/-- Lines 131–133 of `generic.py`:
`scope = resp_json.get('scope', '')` followed by
`if isinstance(scope, str): scope = scope.split(' ')`.
Note that the default for an absent `scope` is the *string* `''`, which
`split(' ')` turns into `['']` (a one-element list), and that a
non-string value (e.g. an already-split list) is passed through
unchanged. -/
def parseScope (tokenResp : JObj) : JValue :=
  match (pyGet tokenResp "scope").getD (.str "") with
  | .str s => .arr ((pySplitSpace s).map JValue.str)
  | v => v

/-! ### Python `str()` rendering, used by `"{} {}".format(...)` -/

mutual

/-- Python `str(v)` for a JSON-decoded value (escaping of quotes inside
nested strings is not modelled; no configuration in the claims nests
strings containing quotes). -/
def pyStr : JValue → String
  | .null => "None"
  | .bool true => "True"
  | .bool false => "False"
  | .num n => toString n
  | .str s => s
  | .arr l => "[" ++ pyReprList l ++ "]"
  | .obj o => "\x7b" ++ pyReprObj o ++ "\x7d"

/-- Python `repr(v)`, as used for the elements when rendering a list or
dict: differs from `str` only on strings, which get quoted. -/
def pyReprElem : JValue → String
  | .null => "None"
  | .bool true => "True"
  | .bool false => "False"
  | .num n => toString n
  | .str s => "\x27" ++ s ++ "\x27"
  | .arr l => "[" ++ pyReprList l ++ "]"
  | .obj o => "\x7b" ++ pyReprObj o ++ "\x7d"

/-- Comma-separated `repr`s of list elements. -/
def pyReprList : List JValue → String
  | [] => ""
  | [v] => pyReprElem v
  | v :: rest => pyReprElem v ++ ", " ++ pyReprList rest

/-- Comma-separated `'key': repr(value)` entries of a dict. -/
def pyReprObj : List (String × JValue) → String
  | [] => ""
  | [p] => "\x27" ++ p.1 ++ "\x27: " ++ pyReprElem p.2
  | p :: rest => "\x27" ++ p.1 ++ "\x27: " ++ pyReprElem p.2 ++ ", " ++ pyReprObj rest

end

/-! ### base64, form encoding, url_concat -/

/-- Digit of the standard base64 alphabet. -/
def b64Digit (n : Nat) : Char :=
  "ABCDEFGHIJKLMNOPQRSTUVWXYZabcdefghijklmnopqrstuvwxyz0123456789+/".toList.getD n 'A'

/-- Standard base64 of a byte list, processed in 3-byte chunks with
`=` padding — the semantics of `base64.b64encode`. -/
def base64Chunks : List Nat → List Char
  | [] => []
  | [a] => [b64Digit (a / 4 % 64), b64Digit (a % 4 * 16), '=', '=']
  | [a, b] => [b64Digit (a / 4 % 64), b64Digit ((a % 4 * 16 + b / 16) % 64),
      b64Digit (b % 16 * 4), '=']
  | a :: b :: c :: rest =>
    b64Digit (a / 4 % 64) :: b64Digit ((a % 4 * 16 + b / 16) % 64) ::
      b64Digit ((b % 16 * 4 + c / 64) % 64) :: b64Digit (c % 64) :: base64Chunks rest

/-- `base64.b64encode(bs).decode("utf8")`. -/
def base64Encode (bs : List Nat) : String := String.mk (base64Chunks bs)

/-- UTF-8 encoding of one Unicode codepoint. -/
def utf8EncodeChar (n : Nat) : List Nat :=
  if n < 128 then [n]
  else if n < 2048 then [192 + n / 64, 128 + n % 64]
  else if n < 65536 then [224 + n / 4096, 128 + n / 64 % 64, 128 + n % 64]
  else [240 + n / 262144, 128 + n / 4096 % 64, 128 + n / 64 % 64, 128 + n % 64]

/-- `bytes(s, "utf8")` as a list of byte values. -/
def utf8Bytes (s : String) : List Nat :=
  (s.toList.map (fun c => utf8EncodeChar c.toNat)).flatten

/-- `dict.__setitem__` on an association list: replace the value in
place when the key exists (keeping its position, like a Python dict),
otherwise append the new binding. -/
def dictSet (d : List (String × String)) (k v : String) : List (String × String) :=
  match d with
  | [] => [(k, v)]
  | (k0, v0) :: rest => if k0 = k then (k, v) :: rest else (k0, v0) :: dictSet rest k v

/-- Python `d.update(u)`: apply each binding of `u` in order. -/
def dictUpdate (d u : List (String × String)) : List (String × String) :=
  u.foldl (fun acc p => dictSet acc p.1 p.2) d

/-- Lookup in a string dict (`d.get(k)`). -/
def dictGet : List (String × String) → String → Option String
  | [], _ => none
  | (a, b) :: d, k => if a = k then some b else dictGet d k

/-- Lines 93–98 of `generic.py`: the form parameters of the token POST,
`dict(redirect_uri=..., code=..., grant_type='authorization_code')`
followed by `params.update(self.extra_params)`. -/
def tokenRequestParams (callbackUrl code : String) (extra : List (String × String)) :
    List (String × String) :=
  dictUpdate [("redirect_uri", callbackUrl), ("code", code),
    ("grant_type", "authorization_code")] extra

/-- `urllib.parse.urlencode(params)` (percent-encoding of the
individual keys and values is elided; no claim depends on it). -/
def formEncode (ps : List (String × String)) : String :=
  String.intercalate "&" (ps.map fun p => p.1 ++ "=" ++ p.2)

/-- Tornado's `url_concat(url, args)`: append the encoded parameters
with `?` or `&` depending on whether the URL already has a query. -/
def urlConcat (u : String) (ps : List (String × String)) : String :=
  if ps.isEmpty then u
  else u ++ (if u.toList.contains '?' then "&" else "?") ++ formEncode ps

/-! ### Errors, configuration, requests, results -/

/-- The Python exceptions the embedded code can raise. -/
inductive PyError where
  | keyError (k : String)
  | valueError (msg : String)
  | typeError (msg : String)
  deriving DecidableEq, Repr

/-- The traitlets configuration of `GenericOAuthenticator` (plus the
inherited `client_id` / `client_secret`), immutable per login attempt.
`group_whitelist` is declared as a `Set` trait at line 82; Python set
iteration order is unspecified, so it is modelled as a list whose order
only affects which group is tested first. -/
structure Config where
  token_url : String
  userdata_url : String
  groupdata_url : String
  client_id : String
  client_secret : String
  extra_params : List (String × String)
  username_key : String
  userdata_params : List (String × String)
  userdata_method : String
  tls_verify : Bool
  group_whitelist : List String

/-- A tornado `HTTPRequest` as constructed by the embedded code
(`body=None` models the keyword being omitted). -/
structure HTTPRequest where
  url : String
  method : String
  headers : List (String × String)
  validate_cert : Bool
  body : Option String
  deriving DecidableEq, Repr

/-- The provider's parsed JSON responses for one login attempt: what
`http_client.fetch` hands back for the token POST and the userdata
fetch.  (The group endpoint is absent because the code never reaches a
group fetch — see `checkGroupWhitelistWired`.) -/
structure Env where
  tokenResp : JObj
  userdataResp : JObj

/-- The `auth_state` dict of the returned identity record
(lines 167–172). -/
structure AuthState where
  access_token : JValue
  refresh_token : JValue
  oauth_user : JObj
  scope : JValue

/-- The identity record returned on success (lines 165–173). -/
structure AuthResult where
  name : JValue
  auth_state : AuthState

/-- One run of `authenticate`: the outbound HTTP requests issued, in
order, and the outcome (an exception, `None`, or an `AuthResult`). -/
structure RunResult where
  requests : List HTTPRequest
  outcome : Except PyError (Option AuthResult)

/-- Python `d[k]` on a dict: the value, or `KeyError` when absent. -/
def pyGetItem (o : JObj) (k : String) : Except PyError JValue :=
  match pyGet o k with
  | some v => .ok v
  | none => .error (.keyError k)

/-! ### The group-whitelist helper -/

/-- `leadMatch needle hay`: `needle` occurs at the head of `hay`. -/
def leadMatch : List Char → List Char → Bool
  | [], _ => true
  | _ :: _, [] => false
  | a :: as, b :: bs => a == b && leadMatch as bs

/-- Python `needle in hay` on strings: substring containment. -/
def pySubstr (needle : List Char) : List Char → Bool
  | [] => needle.isEmpty
  | b :: bs => leadMatch needle (b :: bs) || pySubstr needle bs

/-- Python `g in c` for a string `g` and a JSON-decoded container `c`
(`c = none` models Python `None`, which `resp_json.get('groups')`
returns when the key is absent): membership test on a list (string
equality; a Python `str` never compares equal to a non-`str`), key
membership on a dict, substring test on a string, and `TypeError` on
`None` and the other non-iterable values. -/
def pyIn (g : String) (c : Option JValue) : Except PyError Bool :=
  match c with
  | some (.arr l) => .ok (l.any fun v => match v with | .str t => t == g | _ => false)
  | some (.obj o) => .ok (o.any fun p => p.1 == g)
  | some (.str t) => .ok (pySubstr g.toList t.toList)
  | none => .error (.typeError "argument of type \x27NoneType\x27 is not iterable")
  | some .null => .error (.typeError "argument of type \x27NoneType\x27 is not iterable")
  | some (.bool _) => .error (.typeError "argument of type \x27bool\x27 is not iterable")
  | some (.num _) => .error (.typeError "argument of type \x27int\x27 is not iterable")

/-- The loop of lines 185–188: `for group in self.group_whitelist: if
group in user_groups: return True` then `return False` — short-circuit
on the first match. -/
def groupLoop (whitelist : List String) (userGroups : Option JValue) : Except PyError Bool :=
  match whitelist with
  | [] => .ok false
  | g :: rest =>
    match pyIn g userGroups with
    | .error e => .error e
    | .ok true => .ok true
    | .ok false => groupLoop rest userGroups

/-- The response-processing logic of `_check_group_whitelist`
(lines 183–188): `user_groups = resp_json.get('groups')` — note the
missing default, so an absent `groups` key yields `None`, not `[]` —
followed by the membership loop.  (In the source this code is
unreachable as wired, because the request construction above it at
lines 177–181 references the unbound names `url`, `headers` and
`http_client`; the logic itself is modelled here from the statements as
written, taking the parsed group-endpoint response as input.) -/
def checkGroupWhitelistLogic (whitelist : List String) (respJson : JObj) :
    Except PyError Bool :=
  groupLoop whitelist (pyGet respJson "groups")

/-- The call `self._check_group_whitelist(username, headers)` at
line 160, resolved against the definition `def
_check_group_whitelist(self, username)` at line 176: the method accepts
only `username`, so in Python the call itself raises `TypeError` before
the helper body runs.  (Even if the arity matched, the body would raise
`NameError` at lines 177–182 on the unbound `url`, `headers` and
`http_client` before issuing any request.) -/
def checkGroupWhitelistWired (_username : JValue) (_headers : List (String × String)) :
    Except PyError Bool :=
  .error (.typeError
    "_check_group_whitelist() takes 2 positional arguments but 3 were given")

/-! ### The `authenticate` coroutine -/

/-- The `HTTPRequest` constructed inside `_check_group_whitelist` at
lines 177–181, as written: `HTTPRequest(url, method=self.userdata_method,
headers=headers, validate_cert=self.tls_verify)`.  The names `url` and
`headers` are unbound in the source (the enclosing method has no such
locals), so they are taken as parameters here; `method` and
`validate_cert` come from the configuration exactly as in the source
text.  The construction is never executed in a run (see
`checkGroupWhitelistWired`). -/
def groupRequestAsWritten (cfg : Config) (url : String)
    (headers : List (String × String)) : HTTPRequest :=
  ⟨url, cfg.userdata_method, headers, cfg.tls_verify, none⟩

/-- The token-endpoint POST of lines 105–122: Basic authentication
from `base64(client_id:client_secret)`, the fixed `Accept` and
`User-Agent` headers, `validate_cert=self.tls_verify`, and the
form-encoded body of lines 93–98. -/
def tokenRequest (cfg : Config) (code : String) (callbackUrl : String) : HTTPRequest :=
  ⟨cfg.token_url, "POST",
    [("Accept", "application/json"), ("User-Agent", "JupyterHub"),
      ("Authorization", "Basic " ++
        base64Encode (utf8Bytes (cfg.client_id ++ ":" ++ cfg.client_secret)))],
    cfg.tls_verify,
    some (formEncode (tokenRequestParams callbackUrl code cfg.extra_params))⟩

/-- The headers rebuilt at lines 136–140:
`Authorization: "{} {}".format(token_type, access_token)`. -/
def userdataHeaders (token_type access_token : JValue) : List (String × String) :=
  [("Accept", "application/json"), ("User-Agent", "JupyterHub"),
    ("Authorization", pyStr token_type ++ " " ++ pyStr access_token)]

/-- The userdata fetch of lines 141–150: `url_concat(userdata_url,
userdata_params)`, the configured method, the bearer headers, and
`validate_cert=self.tls_verify`. -/
def userdataRequest (cfg : Config) (token_type access_token : JValue) : HTTPRequest :=
  ⟨urlConcat cfg.userdata_url cfg.userdata_params, cfg.userdata_method,
    userdataHeaders token_type access_token, cfg.tls_verify, none⟩

/-- Shallow embedding of `GenericOAuthenticator.authenticate`
(lines 87–173 of `generic.py`), for one login attempt whose endpoint
responses are given by `env`.  Transport is modelled as always
delivering the given parsed bodies; the function returns the requests
issued, in order, together with the outcome. -/
def authenticate (cfg : Config) (code : String) (callbackUrl : String) (env : Env) :
    RunResult :=
  -- lines 100–103: `if self.token_url: ... else: raise ValueError(...)`
  -- (a Python string is falsy exactly when it is empty); the params of
  -- lines 93–98 and the headers/request of lines 105–122 are
  -- `tokenRequest`
  if cfg.token_url = "" then
    ⟨[], .error (.valueError "Please set the OAUTH2_TOKEN_URL environment variable")⟩
  else
    -- line 128: `resp_json['access_token']`
    match pyGetItem env.tokenResp "access_token" with
    | .error e => ⟨[tokenRequest cfg code callbackUrl], .error e⟩
    | .ok access_token =>
      -- line 130: `resp_json['token_type']` (line 129 reads
      -- `refresh_token`, inlined below; line 131–133 read `scope`,
      -- inlined below as `parseScope`)
      match pyGetItem env.tokenResp "token_type" with
      | .error e => ⟨[tokenRequest cfg code callbackUrl], .error e⟩
      | .ok token_type =>
        -- lines 141–144
        if cfg.userdata_url = "" then
          ⟨[tokenRequest cfg code callbackUrl],
            .error (.valueError "Please set the OAUTH2_USERDATA_URL environment variable")⟩
        else
          -- lines 146–152, then lines 154–157:
          -- `if not resp_json.get(self.username_key): return`
          match pyGet env.userdataResp cfg.username_key with
          | none =>
            ⟨[tokenRequest cfg code callbackUrl,
                userdataRequest cfg token_type access_token], .ok none⟩
          | some username =>
            if !pyTruthy username then
              ⟨[tokenRequest cfg code callbackUrl,
                  userdataRequest cfg token_type access_token], .ok none⟩
            else
              -- lines 159–163 (a Python set is truthy exactly when
              -- non-empty)
              if cfg.group_whitelist ≠ [] then
                match checkGroupWhitelistWired username
                    (userdataHeaders token_type access_token) with
                | .error e =>
                  ⟨[tokenRequest cfg code callbackUrl,
                      userdataRequest cfg token_type access_token], .error e⟩
                | .ok user_in_group =>
                  if !user_in_group then
                    ⟨[tokenRequest cfg code callbackUrl,
                        userdataRequest cfg token_type access_token], .ok none⟩
                  else
                    ⟨[tokenRequest cfg code callbackUrl,
                        userdataRequest cfg token_type access_token],
                      .ok (some ⟨username,
                        ⟨access_token, (pyGet env.tokenResp "refresh_token").getD .null,
                          env.userdataResp, parseScope env.tokenResp⟩⟩)⟩
              else
                -- lines 165–173
                ⟨[tokenRequest cfg code callbackUrl,
                    userdataRequest cfg token_type access_token],
                  .ok (some ⟨username,
                    ⟨access_token, (pyGet env.tokenResp "refresh_token").getD .null,
                      env.userdataResp, parseScope env.tokenResp⟩⟩)⟩

/-! ### Concrete fixtures used in witnesses and counterexamples -/

/-- A deployment with both endpoint URLs set and no group whitelist. -/
def cfgNoGroups : Config :=
  ⟨"https://p/token", "https://p/user", "", "id", "secret", [], "username", [],
    "GET", true, []⟩

/-- The same deployment with `group_whitelist = {'admins'}`. -/
def cfgGroups : Config :=
  ⟨"https://p/token", "https://p/user", "https://p/groups", "id", "secret", [],
    "username", [], "GET", true, ["admins"]⟩

/-- A well-formed token response and a userdata response naming `alice`. -/
def envAlice : Env :=
  ⟨[("access_token", .str "at"), ("token_type", .str "Bearer")],
    [("username", .str "alice")]⟩

/-- The same deployment as `cfgNoGroups` but with an empty token URL. -/
def cfgNoTokenUrl : Config :=
  ⟨"", "https://p/user", "", "id", "secret", [], "username", [], "GET", true, []⟩

/-- A deployment with `group_whitelist = {'devs'}`. -/
def cfgGroupsB : Config :=
  ⟨"https://p/token", "https://p/user", "https://p/groups", "id", "secret", [],
    "username", [], "GET", false, ["devs"]⟩

/-- An empty (`{}`) token response paired with a valid userdata body. -/
def envNoToken : Env := ⟨[], [("username", .str "alice")]⟩

/-- A well-formed token response, but a userdata body whose `username`
value is the empty string (falsy). -/
def envEmptyName : Env :=
  ⟨[("access_token", .str "at"), ("token_type", .str "Bearer")],
    [("username", .str "")]⟩

/-- A well-formed token response and a userdata body naming `bob`. -/
def envBob : Env :=
  ⟨[("access_token", .str "tok"), ("token_type", .str "token")],
    [("username", .str "bob")]⟩

/-- Unfolding equation for `pyGetItem`: `d[k]` succeeds with `v` exactly
when `d.get(k)` is `v`. -/
@[simp] theorem pyGetItem_eq_ok {o : JObj} {k : String} {v : JValue} :
    pyGetItem o k = .ok v ↔ pyGet o k = some v := by
  unfold pyGetItem
  cases pyGet o k <;> simp

/-- The test `not resp_json.get(self.username_key)` at line 154: the
username key is absent, or its value is falsy. -/
def usernameRejected (userdataResp : JObj) (k : String) : Bool :=
  match pyGet userdataResp k with
  | none => true
  | some v => !pyTruthy v

/-! ### Claims -/

/-- C3 counterexample: with `scope` absent from the token response, the
parsed scope list is `['']` (because the default is the string `''` and
`''.split(' ') == ['']`), not the empty list the claim states. -/
theorem parseScope_absent_counterexample :
    parseScope [("access_token", .str "t")] = .arr [.str ""] ∧
    parseScope [("access_token", .str "t")] ≠ .arr [] := by
  refine ⟨rfl, fun h => ?_⟩
  have h1 : ([JValue.str ""] : List JValue) = [] := by injection h
  exact List.cons_ne_nil _ _ h1

/-- C3 (amended): a string `scope` is split on single spaces, a list
`scope` passes through unchanged, and an absent `scope` yields the
one-element list `['']` (not the empty list). -/
theorem parseScope_cases (resp : JObj) :
    (∀ s, pyGet resp "scope" = some (.str s) →
      parseScope resp = .arr ((pySplitSpace s).map JValue.str)) ∧
    (∀ l, pyGet resp "scope" = some (.arr l) → parseScope resp = .arr l) ∧
    (pyGet resp "scope" = none → parseScope resp = .arr [.str ""]) := by
  refine ⟨fun s h => ?_, fun l h => ?_, fun h => ?_⟩ <;>
    (unfold parseScope; rw [h]; rfl)

/-- Witness for `parseScope_cases` at concrete responses. -/
theorem parseScope_cases_witness :
    parseScope [("scope", .str "read write")] =
      .arr ((pySplitSpace "read write").map JValue.str) ∧
    parseScope [("scope", .arr [.str "a", .str "b"])] = .arr [.str "a", .str "b"] ∧
    parseScope [("other", .num 1)] = .arr [.str ""] :=
  ⟨(parseScope_cases [("scope", .str "read write")]).1 "read write" rfl,
    (parseScope_cases [("scope", .arr [.str "a", .str "b"])]).2.1 [.str "a", .str "b"] rfl,
    (parseScope_cases [("other", .num 1)]).2.2 rfl⟩

/-- C5: with `config.token_url` empty, `authenticate` raises the
configuration `ValueError` (a distinct error constructor from any
response-parsing error) and issues zero network requests. -/
theorem authenticate_missing_token_url (cfg : Config) (code cb : String) (env : Env)
    (h : cfg.token_url = "") :
    authenticate cfg code cb env =
      ⟨[], .error (.valueError "Please set the OAUTH2_TOKEN_URL environment variable")⟩ := by
  unfold authenticate
  rw [if_pos h]

/-- Witness for `authenticate_missing_token_url`. -/
theorem authenticate_missing_token_url_witness :
    authenticate cfgNoTokenUrl "c" "cb" envAlice =
      ⟨[], .error (.valueError "Please set the OAUTH2_TOKEN_URL environment variable")⟩ :=
  authenticate_missing_token_url cfgNoTokenUrl "c" "cb" envAlice rfl

/-- C4: when the token response lacks `access_token` or `token_type`,
`authenticate` raises `KeyError` (the code's form of a malformed-token
error) and the only request issued is the token POST — the userdata
fetch never happens. -/
theorem authenticate_malformed_token_response (cfg : Config) (code cb : String)
    (env : Env) (h1 : cfg.token_url ≠ "")
    (h2 : pyGet env.tokenResp "access_token" = none ∨
      pyGet env.tokenResp "token_type" = none) :
    (∃ k, (authenticate cfg code cb env).outcome = .error (.keyError k)) ∧
    (authenticate cfg code cb env).requests = [tokenRequest cfg code cb] := by
  unfold authenticate
  rw [if_neg h1]
  rcases h2 with h2 | h2
  · simp [pyGetItem, h2]
  · cases hat : pyGet env.tokenResp "access_token" with
    | none => simp [pyGetItem, hat]
    | some v => simp [pyGetItem, hat, h2]

/-- Witness for `authenticate_malformed_token_response`. -/
theorem authenticate_malformed_token_response_witness :
    (∃ k, (authenticate cfgNoGroups "c" "cb" envNoToken).outcome =
      .error (.keyError k)) ∧
    (authenticate cfgNoGroups "c" "cb" envNoToken).requests =
      [tokenRequest cfgNoGroups "c" "cb"] :=
  authenticate_malformed_token_response cfgNoGroups "c" "cb" envNoToken
    (by decide) (Or.inl rfl)

/-- C2: when the username key is absent from the userdata response or
maps to a falsy value, `authenticate` returns `None` — a soft
rejection, not an exception — whatever the rest of the response and the
whitelist configuration. -/
theorem authenticate_username_missing_soft_reject (cfg : Config) (code cb : String)
    (env : Env) (h1 : cfg.token_url ≠ "") (h2 : cfg.userdata_url ≠ "")
    (hat : ∃ v, pyGet env.tokenResp "access_token" = some v)
    (htt : ∃ v, pyGet env.tokenResp "token_type" = some v)
    (hu : usernameRejected env.userdataResp cfg.username_key = true) :
    (authenticate cfg code cb env).outcome = .ok none := by
  obtain ⟨av, hat⟩ := hat
  obtain ⟨tv, htt⟩ := htt
  unfold authenticate
  rw [if_neg h1]
  simp only [pyGetItem, hat, htt]
  rw [if_neg h2]
  unfold usernameRejected at hu
  cases hgu : pyGet env.userdataResp cfg.username_key with
  | none => simp [hgu]
  | some v =>
    rw [hgu] at hu
    have hv : pyTruthy v = false := by simpa using hu
    simp [hgu, hv]

/-- Witness for `authenticate_username_missing_soft_reject`: an empty
(falsy) username is softly rejected even with a whitelist configured. -/
theorem authenticate_username_missing_soft_reject_witness :
    (authenticate cfgGroups "c" "cb" envEmptyName).outcome = .ok none :=
  authenticate_username_missing_soft_reject cfgGroups "c" "cb" envEmptyName
    (by decide) (by decide) ⟨.str "at", rfl⟩ ⟨.str "Bearer", rfl⟩ rfl

/-- C1 (code bug): on a login attempt that reaches a non-empty group
whitelist, the call `self._check_group_whitelist(username, headers)`
raises `TypeError` (the method accepts only `username`), so the attempt
errors instead of being softly rejected with `None`. -/
theorem authenticate_group_check_raises :
    (authenticate cfgGroups "c" "cb" envAlice).outcome =
      .error (.typeError
        "_check_group_whitelist() takes 2 positional arguments but 3 were given") := rfl

/-- C7 (code bug): a whitelisted login attempt issues only the token
POST and the userdata fetch and then errors — no group-endpoint request
(with or without the authenticated headers) is ever issued. -/
theorem authenticate_no_group_request :
    (authenticate cfgGroupsB "c" "cb" envBob).requests.map HTTPRequest.url =
      ["https://p/token", "https://p/user"] ∧
    (∃ m, (authenticate cfgGroupsB "c" "cb" envBob).outcome =
      .error (.typeError m)) := by
  exact ⟨rfl, ⟨_, rfl⟩⟩

/-- C6 (code bug): the membership loop of `_check_group_whitelist`
returns the non-empty-intersection boolean when `groups` is present,
but an absent `groups` key yields `None` (the `.get` has no default),
so a non-empty whitelist raises `TypeError` instead of returning
`False`; only an empty whitelist avoids the error. -/
theorem checkGroupWhitelist_absent_groups_raises :
    checkGroupWhitelistLogic ["admins"] [("user", .str "alice")] =
      .error (.typeError "argument of type \x27NoneType\x27 is not iterable") ∧
    checkGroupWhitelistLogic ["admins"] [("groups", .arr [.str "x"])] = .ok false ∧
    checkGroupWhitelistLogic ["x"] [("groups", .arr [.str "x", .str "y"])] = .ok true ∧
    checkGroupWhitelistLogic [] [("user", .str "alice")] = .ok false :=
  ⟨rfl, rfl, rfl, rfl⟩

/-- Case analysis of one `authenticate` run: every request it issues
carries `validate_cert = cfg.tls_verify`, and an identity record is
returned only with the extracted username and the full auth-state
bundle. -/
theorem authenticate_analysis (cfg : Config) (code cb : String) (env : Env) :
    (∀ req ∈ (authenticate cfg code cb env).requests,
      req.validate_cert = cfg.tls_verify) ∧
    (∀ r : AuthResult, (authenticate cfg code cb env).outcome = .ok (some r) →
      r.name = (pyGet env.userdataResp cfg.username_key).getD .null ∧
      r.auth_state.access_token = (pyGet env.tokenResp "access_token").getD .null ∧
      r.auth_state.refresh_token = (pyGet env.tokenResp "refresh_token").getD .null ∧
      r.auth_state.oauth_user = env.userdataResp ∧
      r.auth_state.scope = parseScope env.tokenResp) := by
  unfold authenticate
  by_cases h1 : cfg.token_url = ""
  · rw [if_pos h1]
    exact ⟨fun req hmem => absurd hmem (by simp), fun r hr => absurd hr (by simp)⟩
  rw [if_neg h1]
  cases hat : pyGetItem env.tokenResp "access_token" with
  | error e =>
    dsimp only []
    refine ⟨fun req hmem => ?_, fun r hr => absurd hr (by simp)⟩
    simp only [List.mem_cons, List.not_mem_nil, or_false] at hmem
    subst hmem; rfl
  | ok av =>
    dsimp only []
    cases htt : pyGetItem env.tokenResp "token_type" with
    | error e =>
      dsimp only []
      refine ⟨fun req hmem => ?_, fun r hr => absurd hr (by simp)⟩
      simp only [List.mem_cons, List.not_mem_nil, or_false] at hmem
      subst hmem; rfl
    | ok tv =>
      dsimp only []
      by_cases h2 : cfg.userdata_url = ""
      · rw [if_pos h2]
        refine ⟨fun req hmem => ?_, fun r hr => absurd hr (by simp)⟩
        simp only [List.mem_cons, List.not_mem_nil, or_false] at hmem
        subst hmem; rfl
      rw [if_neg h2]
      cases hgu : pyGet env.userdataResp cfg.username_key with
      | none =>
        dsimp only []
        refine ⟨fun req hmem => ?_, fun r hr => absurd hr (by simp)⟩
        simp only [List.mem_cons, List.not_mem_nil, or_false] at hmem
        rcases hmem with rfl | rfl <;> rfl
      | some username =>
        dsimp only []
        by_cases htr : (!pyTruthy username) = true
        · rw [if_pos htr]
          refine ⟨fun req hmem => ?_, fun r hr => absurd hr (by simp)⟩
          simp only [List.mem_cons, List.not_mem_nil, or_false] at hmem
          rcases hmem with rfl | rfl <;> rfl
        rw [if_neg htr]
        by_cases hwl : cfg.group_whitelist ≠ []
        · rw [if_pos hwl]
          refine ⟨fun req hmem => ?_, fun r hr => ?_⟩
          · simp only [checkGroupWhitelistWired, List.mem_cons, List.not_mem_nil,
              or_false] at hmem
            rcases hmem with rfl | rfl <;> rfl
          · simp [checkGroupWhitelistWired] at hr
        · rw [if_neg hwl]
          refine ⟨fun req hmem => ?_, fun r hr => ?_⟩
          · simp only [List.mem_cons, List.not_mem_nil, or_false] at hmem
            rcases hmem with rfl | rfl <;> rfl
          · rw [pyGetItem_eq_ok] at hat htt
            simp only [Except.ok.injEq, Option.some.injEq] at hr
            subst hr
            simp [hat]

/-- C8: whenever `authenticate` returns an identity record, its `name`
is the value extracted at the configured username key and its
`auth_state` bundles the access token, the refresh token (`None` when
absent), the full raw userdata response, and the parsed scope. -/
theorem authenticate_success_shape (cfg : Config) (code cb : String) (env : Env)
    (r : AuthResult)
    (h : (authenticate cfg code cb env).outcome = .ok (some r)) :
    r.name = (pyGet env.userdataResp cfg.username_key).getD .null ∧
    r.auth_state.access_token = (pyGet env.tokenResp "access_token").getD .null ∧
    r.auth_state.refresh_token = (pyGet env.tokenResp "refresh_token").getD .null ∧
    r.auth_state.oauth_user = env.userdataResp ∧
    r.auth_state.scope = parseScope env.tokenResp :=
  (authenticate_analysis cfg code cb env).2 r h

/-- Witness for `authenticate_success_shape` on a concrete successful
run. -/
theorem authenticate_success_shape_witness :
    (⟨.str "alice", ⟨.str "at", .null, [("username", .str "alice")], .arr [.str ""]⟩⟩ :
        AuthResult).name =
      (pyGet envAlice.userdataResp cfgNoGroups.username_key).getD .null ∧
    (⟨.str "at", .null, [("username", .str "alice")], .arr [.str ""]⟩ :
        AuthState).access_token =
      (pyGet envAlice.tokenResp "access_token").getD .null ∧
    (⟨.str "at", .null, [("username", .str "alice")], .arr [.str ""]⟩ :
        AuthState).refresh_token =
      (pyGet envAlice.tokenResp "refresh_token").getD .null ∧
    (⟨.str "at", .null, [("username", .str "alice")], .arr [.str ""]⟩ :
        AuthState).oauth_user = envAlice.userdataResp ∧
    (⟨.str "at", .null, [("username", .str "alice")], .arr [.str ""]⟩ :
        AuthState).scope = parseScope envAlice.tokenResp :=
  authenticate_success_shape cfgNoGroups "c" "cb" envAlice
    ⟨.str "alice", ⟨.str "at", .null, [("username", .str "alice")], .arr [.str ""]⟩⟩ rfl

/-- C10: every HTTP request `authenticate` issues carries
`validate_cert = config.tls_verify`, and the group request as written
in the helper's source (never executed) also passes the same flag. -/
theorem tls_verify_uniform :
    (∀ (cfg : Config) (code cb : String) (env : Env) (req : HTTPRequest),
      req ∈ (authenticate cfg code cb env).requests →
      req.validate_cert = cfg.tls_verify) ∧
    (∀ (cfg : Config) (url : String) (hdrs : List (String × String)),
      (groupRequestAsWritten cfg url hdrs).validate_cert = cfg.tls_verify) :=
  ⟨fun cfg code cb env req hmem => (authenticate_analysis cfg code cb env).1 req hmem,
    fun _ _ _ => rfl⟩

/-- Setting a key leaves every other key's lookup unchanged and makes
the set key's lookup return the new value. -/
theorem dictGet_dictSet (d : List (String × String)) (k v k' : String) :
    dictGet (dictSet d k v) k' = if k' = k then some v else dictGet d k' := by
  induction d with
  | nil =>
    by_cases h : k' = k
    · subst h; simp [dictSet, dictGet]
    · simp [dictSet, dictGet, h, Ne.symm h]
  | cons p rest ih =>
    obtain ⟨a, b⟩ := p
    by_cases hak : a = k
    · subst hak
      by_cases h : k' = a
      · subst h; simp [dictSet, dictGet]
      · simp [dictSet, dictGet, h, Ne.symm h]
    · by_cases h : k' = k
      · subst h
        simp [dictSet, dictGet, hak, ih]
      · simp [dictSet, dictGet, hak, ih, h]

/-- A key absent from a dict looks up to `none`. -/
theorem dictGet_eq_none_of_not_mem (u : List (String × String)) (k : String)
    (h : k ∉ u.map Prod.fst) : dictGet u k = none := by
  induction u with
  | nil => rfl
  | cons p rest ih =>
    obtain ⟨a, b⟩ := p
    simp only [List.map_cons, List.mem_cons] at h
    push_neg at h
    simpa [dictGet, Ne.symm h.1] using ih h.2

/-- Updating with a dict that lacks key `k` does not change `k`'s
lookup. -/
theorem dictGet_dictUpdate_of_none (d u : List (String × String)) (k : String)
    (h : dictGet u k = none) : dictGet (dictUpdate d u) k = dictGet d k := by
  induction u generalizing d with
  | nil => rfl
  | cons p rest ih =>
    obtain ⟨a, b⟩ := p
    have ha : ¬(a = k) := by
      intro hh; subst hh; simp [dictGet] at h
    have hr : dictGet rest k = none := by simpa [dictGet, ha] using h
    show dictGet (dictUpdate (dictSet d a b) rest) k = dictGet d k
    rw [ih _ hr, dictGet_dictSet, if_neg (fun hh : k = a => ha hh.symm)]

/-- Updating with a duplicate-free dict that binds `k` to `v` makes
`k` look up to `v`. -/
theorem dictGet_dictUpdate_of_some (d u : List (String × String)) (k v : String)
    (hnd : (u.map Prod.fst).Nodup) (h : dictGet u k = some v) :
    dictGet (dictUpdate d u) k = some v := by
  induction u generalizing d with
  | nil => simp [dictGet] at h
  | cons p rest ih =>
    obtain ⟨a, b⟩ := p
    simp only [List.map_cons, List.nodup_cons] at hnd
    by_cases ha : a = k
    · subst ha
      have hb : b = v := by simpa [dictGet] using h
      subst hb
      have hrest : dictGet rest a = none := dictGet_eq_none_of_not_mem _ _ hnd.1
      show dictGet (dictUpdate (dictSet d a b) rest) a = some b
      rw [dictGet_dictUpdate_of_none _ _ _ hrest, dictGet_dictSet]
      simp
    · have hr : dictGet rest k = some v := by simpa [dictGet, ha] using h
      exact ih (dictSet d a b) hnd.2 hr

/-- C9: the token POST body is the form encoding of the three mandatory
parameters updated with `extra_params`; for a duplicate-free
`extra_params`, the three keys are always present, every key of
`extra_params` is bound to its `extra_params` value (override or
addition), and every other key keeps its mandatory value. -/
theorem tokenRequestParams_contract (cb code : String)
    (extra : List (String × String)) (hnd : (extra.map Prod.fst).Nodup) :
    (∀ cfg : Config, cfg.extra_params = extra →
      (tokenRequest cfg code cb).body =
        some (formEncode (tokenRequestParams cb code extra))) ∧
    (dictGet (tokenRequestParams cb code extra) "redirect_uri").isSome ∧
    (dictGet (tokenRequestParams cb code extra) "code").isSome ∧
    (dictGet (tokenRequestParams cb code extra) "grant_type").isSome ∧
    (∀ k v, dictGet extra k = some v →
      dictGet (tokenRequestParams cb code extra) k = some v) ∧
    (∀ k, dictGet extra k = none →
      dictGet (tokenRequestParams cb code extra) k =
        dictGet [("redirect_uri", cb), ("code", code),
          ("grant_type", "authorization_code")] k) := by
  refine ⟨fun cfg hc => by subst hc; rfl, ?_, ?_, ?_,
    fun k v h => dictGet_dictUpdate_of_some _ _ _ _ hnd h,
    fun k h => dictGet_dictUpdate_of_none _ _ _ h⟩
  · cases hk : dictGet extra "redirect_uri" with
    | some v =>
      unfold tokenRequestParams
      rw [dictGet_dictUpdate_of_some _ _ _ _ hnd hk]; rfl
    | none =>
      unfold tokenRequestParams
      rw [dictGet_dictUpdate_of_none _ _ _ hk]; rfl
  · cases hk : dictGet extra "code" with
    | some v =>
      unfold tokenRequestParams
      rw [dictGet_dictUpdate_of_some _ _ _ _ hnd hk]; rfl
    | none =>
      unfold tokenRequestParams
      rw [dictGet_dictUpdate_of_none _ _ _ hk]; rfl
  · cases hk : dictGet extra "grant_type" with
    | some v =>
      unfold tokenRequestParams
      rw [dictGet_dictUpdate_of_some _ _ _ _ hnd hk]; rfl
    | none =>
      unfold tokenRequestParams
      rw [dictGet_dictUpdate_of_none _ _ _ hk]; rfl

/-- Witness for `tokenRequestParams_contract`: `extra_params` that
override `grant_type` and add `audience`. -/
theorem tokenRequestParams_contract_witness :
    (dictGet (tokenRequestParams "cb" "c" [("grant_type", "override"), ("audience", "aud")])
      "redirect_uri").isSome ∧
    dictGet (tokenRequestParams "cb" "c" [("grant_type", "override"), ("audience", "aud")])
      "grant_type" = some "override" ∧
    dictGet (tokenRequestParams "cb" "c" [("grant_type", "override"), ("audience", "aud")])
      "code" = dictGet [("redirect_uri", "cb"), ("code", "c"),
        ("grant_type", "authorization_code")] "code" :=
  have h := tokenRequestParams_contract "cb" "c"
    [("grant_type", "override"), ("audience", "aud")] (by decide)
  ⟨h.2.1, h.2.2.2.2.1 "grant_type" "override" rfl, h.2.2.2.2.2 "code" rfl⟩

/-- Witness for `tls_verify_uniform`: the token POST of a concrete run
with `tls_verify = false`. -/
theorem tls_verify_uniform_witness :
    (⟨"https://p/token", "POST",
        [("Accept", "application/json"), ("User-Agent", "JupyterHub"),
          ("Authorization", "Basic aWQ6c2VjcmV0")], false,
        some "redirect_uri=cb&code=c&grant_type=authorization_code"⟩ :
      HTTPRequest).validate_cert = cfgGroupsB.tls_verify :=
  tls_verify_uniform.1 cfgGroupsB "c" "cb" envBob _ (by decide)

end GenericOAuth
